import Mathlib

/-!
Verification of the supply-chain ingestion pipeline (src/ingest.py) and the
audit query layer (src/server.py).

Shallow embedding notes:
* A pandas DataFrame chunk is a `Frame`: a list of column labels plus rows of
  cell values (`Val`, covering SQL integers, text and NULL).  pandas frames are
  rectangular, so alignment (`row.length = cols.length`) appears as a
  hypothesis where a proof needs it.
* `pd.read_csv(..., chunksize=n)` yields rectangular chunks that all share the
  CSV's header; a dataset with zero data rows yields no chunks.  This is
  `readCsvChunks`.
* `DataFrame.to_sql('orders', conn, if_exists='replace')` drops any existing
  table, then creates a new one from the chunk's columns and inserts the
  chunk's rows.  The DROP is a plain DDL statement that Python's sqlite3
  module autocommits outside the transaction wrapping the CREATE+INSERT, so
  when the CREATE fails (sqlite's "duplicate column name" when the chunk has
  two equal labels) the rollback does not restore the dropped table: a failed
  replace leaves the store with no orders table at all.
* pandas series subtraction raises TypeError as soon as an operand cell is a
  string (a day-count column containing any non-numeric token is read as an
  object column); NULL (NaN) operands propagate to NULL instead.
* `to_sql(..., if_exists='append')` issues `INSERT INTO orders (c1, ..., ck)`
  naming the chunk's columns: table columns missing from the chunk are filled
  with NULL; a chunk column absent from the table raises
  "table orders has no column named ...".
* sqlite `AVG(x)` ignores NULLs and returns NULL when every value is NULL.
  Text cells are modelled as contributing 0; sqlite actually coerces
  numeric-looking text to its numeric value.  This simplification is never
  exercised: every audit theorem below restricts the variance cells it reads
  to integers or NULLs.
* Python string methods `lower` / single-character `replace` act per
  character (ASCII case mapping suffices for the labels in scope).
* The secondary index (`CREATE INDEX idx_region ...`) only affects query
  speed, never query results, so the store model keeps no index structure;
  the statement's failure (no table / no region column) is still modelled.
  The "index idx_region already exists" error of re-running over an already
  indexed store is not modelled (no claim reaches it, and it would hit both
  sides of the batching comparison alike).
* The audit tool returns formatted strings; the model returns the structured
  values the formatting is applied to, and `.error` marks a Python exception
  escaping to the caller (e.g. `f"{None:.2f}"` raising TypeError when
  `AVG(lead_time_variance)` is NULL).
-/

namespace SupplyChain

/-- A SQL / pandas cell value: integer, text, or NULL. -/
inductive Val where
  | int (n : Int)
  | str (s : String)
  | null
deriving DecidableEq, Repr

abbrev Row := List Val

/-- A pandas DataFrame chunk, and also the sqlite `orders` table. -/
structure Frame where
  cols : List String
  rows : List Row
deriving DecidableEq, Repr

/-- Python `s.lower()` (per-character ASCII case mapping). -/
def pyLower (s : String) : String := ⟨s.data.map Char.toLower⟩

/-- Python `s.replace(a, b)` for single-character `a`, `b`. -/
def pyReplaceChar (a b : Char) (s : String) : String :=
  ⟨s.data.map (fun c => if c = a then b else c)⟩

/-- Python `s.replace(a, '')` for a single-character `a`. -/
def pyRemoveChar (a : Char) (s : String) : String :=
  ⟨s.data.filter (fun c => c ≠ a)⟩

/-- One label in the comprehension of `clean_column_names`:
`c.lower().replace(' ', '_').replace('(', '').replace(')', '')`. -/
def cleanLabel (c : String) : String :=
  pyRemoveChar ')' (pyRemoveChar '(' (pyReplaceChar ' ' '_' (pyLower c)))

/-- `clean_column_names` (src/ingest.py): relabel the columns, keep the data. -/
def clean_column_names (f : Frame) : Frame :=
  ⟨f.cols.map cleanLabel, f.rows⟩

/-- Value of column `c` in row `r` (first matching label, as in SQL/pandas). -/
def colVal (cols : List String) (r : Row) (c : String) : Option Val :=
  (cols.zip r).lookup c

/-- pandas series subtraction on two cells that passed the string check of
`deriveLeadTime`: integer difference, NULL (NaN) propagation otherwise. -/
def subVal : Val → Val → Val
  | .int a, .int b => .int (a - b)
  | _, _ => .null

/-- `true` exactly on text cells. -/
def isStr : Val → Bool
  | .str _ => true
  | _ => false

/-- A row on which the series subtraction raises TypeError: either day-count
operand is a string cell. -/
def rowSubErr (cols : List String) (r : Row) : Bool :=
  isStr ((colVal cols r "days_for_shipping_real").getD .null) ||
    isStr ((colVal cols r "days_for_shipment_scheduled").getD .null)

/-- Columns after `chunk['lead_time_variance'] = ...`: assignment overwrites
an existing column, otherwise appends a new one. -/
def deriveCols (cols : List String) : List String :=
  if "lead_time_variance" ∈ cols then cols else cols ++ ["lead_time_variance"]

/-- One row after `chunk['lead_time_variance'] = chunk['days_for_shipping_real']
- chunk['days_for_shipment_scheduled']`. -/
def deriveRow (cols : List String) (r : Row) : Row :=
  let v := subVal ((colVal cols r "days_for_shipping_real").getD .null)
                  ((colVal cols r "days_for_shipment_scheduled").getD .null)
  if "lead_time_variance" ∈ cols
  then r.set (cols.findIdx (fun c => c = "lead_time_variance")) v
  else r ++ [v]

/-- The feature-engineering step of `ingest_data` (src/ingest.py lines 30-32):
guarded only by `'days_for_shipping_real' in chunk.columns`; the subtraction
itself raises `KeyError` when `days_for_shipment_scheduled` is missing, and
`TypeError` when any row of the chunk has a string day-count cell. -/
def deriveLeadTime (f : Frame) : Except String Frame :=
  if "days_for_shipping_real" ∈ f.cols then
    if "days_for_shipment_scheduled" ∈ f.cols then
      if f.rows.any (rowSubErr f.cols) then
        .error "TypeError: unsupported operand type for -"
      else .ok ⟨deriveCols f.cols, f.rows.map (deriveRow f.cols)⟩
    else .error "KeyError: days_for_shipment_scheduled"
  else .ok f

/-- `to_sql('orders', conn, if_exists='append')`: the INSERT names the chunk's
columns, so a chunk column missing from the table is an error, while table
columns missing from the chunk are filled with NULL. -/
def appendFrame (t : Frame) (c : Frame) : Except String Frame :=
  if c.cols.all (fun col => t.cols.contains col) then
    .ok ⟨t.cols,
         t.rows ++ c.rows.map (fun r =>
           t.cols.map (fun col =>
             if c.cols.contains col then (colVal c.cols r col).getD .null
             else .null))⟩
  else .error "sqlite3.OperationalError: table orders has no column"

/-- The chunk loop of `ingest_data`: clean, derive, then `to_sql` with
`replace` for the first chunk and `append` afterwards.  The result is the
committed `orders` table plus the first uncaught exception, if any.  On a
failed `replace` (duplicate normalized column name at CREATE TABLE) the DROP
of the prior table was already autocommitted, so no orders table remains;
a derive error happens before `to_sql` and leaves the store untouched. -/
def ingestLoop : List Frame → Bool → Option Frame → Option Frame × Option String
  | [], _, store => (store, none)
  | c :: rest, first, store =>
    let cleaned := clean_column_names c
    match deriveLeadTime cleaned with
    | .error e => (store, some e)
    | .ok d =>
      if first then
        if d.cols.Nodup then ingestLoop rest false (some d)
        else (none, some "sqlite3.OperationalError: duplicate column name")
      else
        match store with
        | some t =>
          match appendFrame t d with
          | .ok t2 => ingestLoop rest false (some t2)
          | .error e => (some t, some e)
        | none => (none, some "sqlite3.OperationalError: no such table: orders")

/-- `conn.execute("CREATE INDEX idx_region ON orders(order_region)")`: fails
when the table was never created or lacks the region column.  The index only
accelerates queries, so no index structure is kept in the store model. -/
def createIndex : Option Frame → Option String
  | none => some "sqlite3.OperationalError: no such table: orders"
  | some t =>
    if "order_region" ∈ t.cols then none
    else some "sqlite3.OperationalError: no such column: order_region"

/-- Outcome of one `ingest_data()` run over a store holding the previously
loaded `orders` table (if any). -/
structure IngestResult where
  openedDB : Bool
  store : Option Frame
  err : Option String
deriving DecidableEq, Repr

/-- `ingest_data` (src/ingest.py): `src = none` models a missing CSV file
(the function prints an error and returns before `sqlite3.connect`); otherwise
`src` is the chunk sequence produced by `pd.read_csv(..., chunksize=20000)`.
`err` records an uncaught exception escaping the run. -/
def ingest_data (src : Option (List Frame)) (store : Option Frame) : IngestResult :=
  match src with
  | none => ⟨false, store, none⟩
  | some chunks =>
    match ingestLoop chunks true store with
    | (st, some e) => ⟨true, st, some e⟩
    | (st, none) => ⟨true, st, createIndex st⟩

/-- Row slices produced by reading `rows` with chunk size `n` (pandas yields
no chunk for an empty dataset; chunk sizes below 1 behave like 1). -/
def chunkRows (n : Nat) (rows : List Row) : List (List Row) :=
  match rows with
  | [] => []
  | r :: rest => (r :: rest.take (n - 1)) :: chunkRows n (rest.drop (n - 1))
termination_by rows.length
decreasing_by simp [List.length_drop]; omega

/-- `pd.read_csv(CSV_FILE, chunksize=n)` on a rectangular dataset `f`: every
chunk shares the header. -/
def readCsvChunks (n : Nat) (f : Frame) : List Frame :=
  (chunkRows n f.rows).map (fun rs => ⟨f.cols, rs⟩)

/-- sqlite numeric reading of a cell for SUM/AVG: NULL is skipped, integers
count, non-numeric text contributes 0 (numeric affinity). -/
def sqlInt : Val → Option Int
  | .int n => some n
  | .str _ => some 0
  | .null => none

/-- Decidable filter of `WHERE order_region = ?` with a bound string. -/
def matchedRows (t : Frame) (rg : String) : List Row :=
  t.rows.filter (fun r => decide (colVal t.cols r "order_region" = some (.str rg)))

/-- Structured content of the strings returned by `audit_region_risk`. -/
inductive AuditOut where
  | noData (rg : String)
  | summary (total : Nat) (avgDelay : Rat) (riskPercent : Rat)
deriving DecidableEq, Repr

/-- `audit_region_risk` (src/server.py): one aggregate row
`(COUNT(*), AVG(lead_time_variance), SUM(CASE WHEN late_delivery_risk = 1
THEN 1 ELSE 0 END) * 100.0 / COUNT(*))` over the region's rows; `row[0] == 0`
yields the "No data found" reply; otherwise `f"{row[1]:.2f}"` raises TypeError
when the average is NULL (all variances NULL).  Referencing a column the table
lacks raises at query execution. -/
def audit_region_risk (t : Frame) (rg : String) : Except String AuditOut :=
  if "order_region" ∈ t.cols ∧ "lead_time_variance" ∈ t.cols ∧
      "late_delivery_risk" ∈ t.cols then
    let m := matchedRows t rg
    if m.length = 0 then .ok (.noData rg)
    else
      let nums := m.filterMap
        (fun r => sqlInt ((colVal t.cols r "lead_time_variance").getD .null))
      match nums with
      | [] => .error "TypeError: unsupported format string passed to NoneType"
      | _ :: _ =>
        let late := (m.filter
          (fun r => decide (colVal t.cols r "late_delivery_risk" = some (.int 1)))).length
        .ok (.summary m.length
          (mkRat nums.sum nums.length)
          (mkRat (late * 100) m.length))
  else .error "sqlite3.OperationalError: no such column"

/-- Running the audit query against the store: a missing `orders` table is a
query-time error. -/
def auditStore (s : Option Frame) (rg : String) : Except String AuditOut :=
  match s with
  | some t => audit_region_risk t rg
  | none => .error "sqlite3.OperationalError: no such table: orders"

/-- The three-record end-to-end dataset of the specification, with the raw
header labels such a CSV carries. -/
def scenarioCsv : Frame :=
  ⟨["Days for shipping (real)", "Days for shipment (scheduled)",
    "Late_delivery_risk", "Category Name", "Order Region"],
   [[.int 5, .int 3, .int 1, .str "A", .str "West"],
    [.int 2, .int 2, .int 0, .str "B", .str "West"],
    [.int 4, .int 4, .int 0, .str "A", .str "East"]]⟩

/-- The specification's description of one canonical label, per character:
lowercase, then a space becomes an underscore, and a literal parenthesis is
removed. -/
def specCanonicalChar (c : Char) : Option Char :=
  let l := c.toLower
  let m := if l = ' ' then '_' else l
  if m = '(' ∨ m = ')' then none else some m

/-- The specification's canonical form of a raw column label. -/
def specLabel (s : String) : String := ⟨s.data.filterMap specCanonicalChar⟩

/-- `true` exactly on integer cells. -/
def isIntVal : Val → Bool
  | .int _ => true
  | _ => false

/-- The integer carried by a cell (0 on non-integers; only used where
`isIntVal` holds). -/
def intValD : Val → Int
  | .int n => n
  | _ => 0

end SupplyChain

deriving instance DecidableEq for Except

namespace SupplyChain

/-! ### Helper lemmas -/

theorem filterMap_eq_map_of {α β : Type} (l : List α) (f : α → Option β)
    (g : α → β) (h : ∀ a ∈ l, f a = some (g a)) : l.filterMap f = l.map g := by
  induction l with
  | nil => rfl
  | cons a t ih =>
    rw [List.filterMap_cons, h a (by simp), List.map_cons,
      ih (fun x hx => h x (by simp [hx]))]

theorem lookup_append_of_no_key (x : String) (l1 l2 : List (String × Val))
    (h : ∀ p ∈ l1, p.1 ≠ x) : (l1 ++ l2).lookup x = l2.lookup x := by
  induction l1 with
  | nil => rfl
  | cons p t ih =>
    cases p with
    | mk k v =>
      have hp : (x == k) = false := by
        have : k ≠ x := h (k, v) (by simp)
        simp only [beq_eq_false_iff_ne, ne_eq]
        exact fun he => this he.symm
      simp only [List.cons_append, List.lookup]
      rw [hp]
      exact ih (fun q hq => h q (by simp [hq]))

theorem colVal_append_fresh (cols : List String) (r : Row) (x : String) (v : Val)
    (hlen : r.length = cols.length) (hx : x ∉ cols) :
    colVal (cols ++ [x]) (r ++ [v]) x = some v := by
  unfold colVal
  rw [List.zip_append hlen.symm]
  rw [lookup_append_of_no_key]
  · simp [List.lookup]
  · intro p hp hpx
    exact hx (hpx ▸ (List.of_mem_zip hp).1)

theorem lookup_recon : ∀ (cols : List String) (r : Row), cols.Nodup →
    r.length = cols.length →
    cols.map (fun col => ((cols.zip r).lookup col).getD .null) = r := by
  intro cols
  induction cols with
  | nil =>
    intro r _ hlen
    simp at hlen
    simp [hlen]
  | cons c cs ih =>
    intro r hnd hlen
    match r with
    | [] => simp at hlen
    | v :: vs =>
      simp only [List.zip_cons_cons, List.map_cons]
      have hc : (List.lookup c ((c, v) :: cs.zip vs)).getD .null = v := by
        simp [List.lookup]
      rw [hc]
      have hcs : cs.map
          (fun col => (List.lookup col ((c, v) :: cs.zip vs)).getD .null)
          = cs.map (fun col => (List.lookup col (cs.zip vs)).getD .null) := by
        apply List.map_congr_left
        intro x hx
        have hxc : (x == c) = false := by
          have : c ∉ cs := (List.nodup_cons.mp hnd).1
          simp only [beq_eq_false_iff_ne, ne_eq]
          intro he
          exact this (he ▸ hx)
        simp [List.lookup, hxc]
      rw [hcs, ih vs (List.nodup_cons.mp hnd).2 (by simpa using hlen)]

theorem map_recon (cols : List String) (r : Row) (hnd : cols.Nodup)
    (hlen : r.length = cols.length) :
    cols.map (fun col =>
      if cols.contains col then (colVal cols r col).getD .null else .null) = r := by
  have h1 : cols.map (fun col =>
      if cols.contains col then (colVal cols r col).getD .null else .null)
      = cols.map (fun col => (colVal cols r col).getD .null) := by
    apply List.map_congr_left
    intro x hx
    have : cols.contains x = true := List.elem_iff.mpr hx
    simp only [this, if_true]
  rw [h1]
  exact lookup_recon cols r hnd hlen

theorem getD_map_helper {α β : Type} (f : α → β) (l : List α) (i : Nat)
    (h : i < l.length) (d : β) (d2 : α) : (l.map f).getD i d = f (l.getD i d2) := by
  rw [List.getD_eq_getElem?_getD, List.getElem?_map,
    List.getElem?_eq_getElem h, List.getD_eq_getElem?_getD,
    List.getElem?_eq_getElem h]
  rfl

theorem cleanChars_eq (l : List Char) :
    (((l.map Char.toLower).map (fun c => if c = ' ' then '_' else c)).filter
      (fun c => c ≠ '(')).filter (fun c => c ≠ ')') =
      l.filterMap specCanonicalChar := by
  induction l with
  | nil => rfl
  | cons c cs ih =>
    have hmap : ((c :: cs).map Char.toLower).map (fun x => if x = ' ' then '_' else x)
        = (if c.toLower = ' ' then '_' else c.toLower) ::
          ((cs.map Char.toLower).map (fun x => if x = ' ' then '_' else x)) := by
      simp
    rw [hmap]
    set d := if c.toLower = ' ' then '_' else c.toLower with hd
    rw [List.filterMap_cons]
    by_cases h1 : d = '('
    · rw [List.filter_cons, if_neg (by simp [h1])]
      have hspec : specCanonicalChar c = none := by
        simp only [specCanonicalChar]
        rw [← hd]
        simp [h1]
      rw [hspec]
      exact ih
    · rw [List.filter_cons, if_pos (by simp [h1])]
      by_cases h2 : d = ')'
      · rw [List.filter_cons, if_neg (by simp [h2])]
        have hspec : specCanonicalChar c = none := by
          simp only [specCanonicalChar]
          rw [← hd]
          simp [h2]
        rw [hspec]
        exact ih
      · rw [List.filter_cons, if_pos (by simp [h2])]
        have hspec : specCanonicalChar c = some d := by
          simp only [specCanonicalChar]
          rw [← hd]
          simp [h1, h2]
        rw [hspec, ih]

theorem cleanLabel_eq_spec (s : String) : cleanLabel s = specLabel s := by
  cases s with
  | mk l => exact congrArg String.mk (cleanChars_eq l)

theorem getD_lt {α : Type} (l : List α) (i : Nat) (h : i < l.length) (d : α) :
    l.getD i d = l[i] := by
  rw [List.getD_eq_getElem?_getD, List.getElem?_eq_getElem h]
  rfl

theorem ingestLoop_first_fails (c : Frame) (rest : List Frame) (s : Option Frame)
    (hnd : ¬ (c.cols.map cleanLabel).Nodup) :
    ∃ e st, ingestLoop (c :: rest) true s = (st, some e) ∧ (st = s ∨ st = none) := by
  by_cases hr : "days_for_shipping_real" ∈ c.cols.map cleanLabel
  · by_cases hs : "days_for_shipment_scheduled" ∈ c.cols.map cleanLabel
    · by_cases hany : c.rows.any (rowSubErr (c.cols.map cleanLabel)) = true
      · refine ⟨"TypeError: unsupported operand type for -", s, ?_, Or.inl rfl⟩
        have hder : deriveLeadTime (clean_column_names c) =
            .error "TypeError: unsupported operand type for -" := by
          simp [deriveLeadTime, clean_column_names, hr, hs, hany]
        simp only [ingestLoop]
        rw [hder]
      · refine ⟨"sqlite3.OperationalError: duplicate column name", none, ?_, Or.inr rfl⟩
        have hder : deriveLeadTime (clean_column_names c) =
            .ok ⟨deriveCols (c.cols.map cleanLabel),
                 c.rows.map (deriveRow (c.cols.map cleanLabel))⟩ := by
          simp [deriveLeadTime, clean_column_names, hr, hs, hany]
        have hnd2 : ¬ (deriveCols (c.cols.map cleanLabel)).Nodup := by
          unfold deriveCols
          by_cases hltv : "lead_time_variance" ∈ c.cols.map cleanLabel
          · rw [if_pos hltv]
            exact hnd
          · rw [if_neg hltv]
            exact fun h => hnd h.of_append_left
        simp only [ingestLoop]
        rw [hder]
        simp only [if_true]
        rw [if_neg hnd2]
    · refine ⟨"KeyError: days_for_shipment_scheduled", s, ?_, Or.inl rfl⟩
      have hder : deriveLeadTime (clean_column_names c) =
          .error "KeyError: days_for_shipment_scheduled" := by
        simp [deriveLeadTime, clean_column_names, hr, hs]
      simp only [ingestLoop]
      rw [hder]
  · refine ⟨"sqlite3.OperationalError: duplicate column name", none, ?_, Or.inr rfl⟩
    have hder : deriveLeadTime (clean_column_names c) = .ok (clean_column_names c) := by
      simp [deriveLeadTime, clean_column_names, hr]
    simp only [ingestLoop]
    rw [hder]
    simp only [if_true]
    rw [if_neg]
    exact hnd

theorem mkRat_nat_div (n : Int) (d : Nat) : mkRat n d = (n : ℚ) / (d : ℚ) := by
  rw [Rat.mkRat_eq_divInt, Rat.divInt_eq_div]
  norm_num

theorem chunkRows_one (rows : List Row) : chunkRows 1 rows = rows.map (fun r => [r]) := by
  induction rows using chunkRows.induct 1 with
  | case1 => simp [chunkRows]
  | case2 r rest ih =>
    simp [chunkRows]
    simpa using ih

theorem chunkRows_full (rows : List Row) (h : rows ≠ []) :
    chunkRows rows.length rows = [rows] := by
  match rows with
  | r :: rest =>
    rw [chunkRows]
    simp [List.take_length, List.drop_length, chunkRows]

theorem derive_rowwise (cols : List String) (rs : List Row)
    (hr : "days_for_shipping_real" ∈ cols.map cleanLabel)
    (hs2 : "days_for_shipment_scheduled" ∈ cols.map cleanLabel)
    (hok : ∀ x ∈ rs, rowSubErr (cols.map cleanLabel) x = false) :
    deriveLeadTime (clean_column_names ⟨cols, rs⟩) =
      .ok ⟨deriveCols (cols.map cleanLabel), rs.map (deriveRow (cols.map cleanLabel))⟩ := by
  have hany : rs.any (rowSubErr (cols.map cleanLabel)) = false := by
    rw [List.any_eq_false]
    intro x hx
    simp [hok x hx]
  simp [deriveLeadTime, clean_column_names, hr, hs2, hany]

theorem derive_skip (cols : List String) (rs : List Row)
    (hr : "days_for_shipping_real" ∉ cols.map cleanLabel) :
    deriveLeadTime (clean_column_names ⟨cols, rs⟩) = .ok ⟨cols.map cleanLabel, rs⟩ := by
  simp [deriveLeadTime, clean_column_names, hr]

theorem derive_err (cols : List String) (rs : List Row)
    (hr : "days_for_shipping_real" ∈ cols.map cleanLabel)
    (hs2 : "days_for_shipment_scheduled" ∉ cols.map cleanLabel) :
    deriveLeadTime (clean_column_names ⟨cols, rs⟩) =
      .error "KeyError: days_for_shipment_scheduled" := by
  simp [deriveLeadTime, clean_column_names, hr, hs2]

theorem deriveRow_length (cols2 : List String) (x : Row) (hx : x.length = cols2.length) :
    (deriveRow cols2 x).length = (deriveCols cols2).length := by
  simp only [deriveRow, deriveCols]
  by_cases hltv : "lead_time_variance" ∈ cols2
  · simp [hltv, hx]
  · simp [hltv, hx]

theorem appendFrame_single (c2 : List String) (acc : List Row) (r2 : Row)
    (hnd : c2.Nodup) (hlen : r2.length = c2.length) :
    appendFrame ⟨c2, acc⟩ ⟨c2, [r2]⟩ = .ok ⟨c2, acc ++ [r2]⟩ := by
  have hc : (c2.all fun col => c2.contains col) = true := by
    rw [List.all_eq_true]
    intro x hx
    exact List.elem_iff.mpr hx
  unfold appendFrame
  rw [if_pos hc]
  simp only [List.map_cons, List.map_nil]
  rw [map_recon c2 r2 hnd hlen]

theorem ingestLoop_singles (cols c2 : List String) (φ : Row → Row) (P : Row → Prop)
    (hder : ∀ rs : List Row, (∀ x ∈ rs, P x) →
      deriveLeadTime (clean_column_names ⟨cols, rs⟩) = .ok ⟨c2, rs.map φ⟩)
    (hnd : c2.Nodup) :
    ∀ (rs acc : List Row), (∀ r ∈ rs, P r) →
      (∀ r ∈ rs, (φ r).length = c2.length) →
      ingestLoop (rs.map (fun x => (⟨cols, [x]⟩ : Frame))) false (some ⟨c2, acc⟩)
        = (some ⟨c2, acc ++ rs.map φ⟩, none) := by
  intro rs
  induction rs with
  | nil =>
    intro acc _ _
    simp [ingestLoop]
  | cons r rest ih =>
    intro acc hP hlen
    have hPr : ∀ y ∈ [r], P y := by
      intro y hy
      rw [List.mem_singleton.mp hy]
      exact hP r (by simp)
    simp only [List.map_cons, ingestLoop]
    rw [hder [r] hPr]
    simp only [List.map_cons, List.map_nil]
    rw [appendFrame_single c2 acc (φ r) hnd (hlen r (by simp))]
    simp only [Bool.false_eq_true, if_false]
    rw [ih (acc ++ [φ r]) (fun x hx => hP x (by simp [hx]))
      (fun x hx => hlen x (by simp [hx]))]
    simp

theorem ingest_single_eq (cols : List String) (r : Row) (rest : List Row)
    (s : Option Frame) (c2 : List String) (φ : Row → Row) (P : Row → Prop)
    (hder : ∀ rs : List Row, (∀ x ∈ rs, P x) →
      deriveLeadTime (clean_column_names ⟨cols, rs⟩) = .ok ⟨c2, rs.map φ⟩)
    (hP : ∀ x ∈ r :: rest, P x)
    (hlen : ∀ x ∈ r :: rest, (φ x).length = c2.length) :
    ingest_data (some ((r :: rest).map (fun x => (⟨cols, [x]⟩ : Frame)))) s
      = ingest_data (some [(⟨cols, r :: rest⟩ : Frame)]) s := by
  have hPr : ∀ y ∈ [r], P y := by
    intro y hy
    rw [List.mem_singleton.mp hy]
    exact hP r (by simp)
  by_cases hnd : c2.Nodup
  · have hL : ingestLoop ((r :: rest).map (fun x => (⟨cols, [x]⟩ : Frame))) true s
        = (some ⟨c2, (r :: rest).map φ⟩, none) := by
      simp only [List.map_cons, ingestLoop]
      rw [hder [r] hPr]
      simp only [List.map_cons, List.map_nil]
      rw [if_pos hnd]
      rw [ingestLoop_singles cols c2 φ P hder hnd rest [φ r]
        (fun x hx => hP x (by simp [hx]))
        (fun x hx => hlen x (by simp [hx]))]
      simp
    have hR : ingestLoop [(⟨cols, r :: rest⟩ : Frame)] true s
        = (some ⟨c2, (r :: rest).map φ⟩, none) := by
      simp only [ingestLoop]
      rw [hder (r :: rest) hP]
      simp only []
      rw [if_pos hnd]
      simp [ingestLoop]
    simp only [ingest_data]
    rw [hL, hR]
  · have hL : ingestLoop ((r :: rest).map (fun x => (⟨cols, [x]⟩ : Frame))) true s
        = (none, some "sqlite3.OperationalError: duplicate column name") := by
      simp only [List.map_cons, ingestLoop]
      rw [hder [r] hPr]
      simp only []
      rw [if_neg hnd]
      simp
    have hR : ingestLoop [(⟨cols, r :: rest⟩ : Frame)] true s
        = (none, some "sqlite3.OperationalError: duplicate column name") := by
      simp only [ingestLoop]
      rw [hder (r :: rest) hP]
      simp only []
      rw [if_neg hnd]
      simp
    simp only [ingest_data]
    rw [hL, hR]

theorem ingest_single_err (cols : List String) (r : Row) (rest : List Row)
    (s : Option Frame) (e : String)
    (hder : ∀ rs : List Row, deriveLeadTime (clean_column_names ⟨cols, rs⟩) = .error e) :
    ingest_data (some ((r :: rest).map (fun x => (⟨cols, [x]⟩ : Frame)))) s
      = ingest_data (some [(⟨cols, r :: rest⟩ : Frame)]) s := by
  have hL : ingestLoop ((r :: rest).map (fun x => (⟨cols, [x]⟩ : Frame))) true s
      = (s, some e) := by
    simp only [List.map_cons, ingestLoop]
    rw [hder [r]]
  have hR : ingestLoop [(⟨cols, r :: rest⟩ : Frame)] true s = (s, some e) := by
    simp only [ingestLoop]
    rw [hder (r :: rest)]
  simp only [ingest_data]
  rw [hL, hR]

/-! ### Claim theorems -/

/-- C1: for a region with at least one matching record (all carrying an
integer `lead_time_variance`), the audit returns the count of matching
records, the mean of their `lead_time_variance`, and 100 times the share of
records with `late_delivery_risk = 1`; and on the spec's three-record
dataset, ingested end to end, the West summary is (2, 1.0, 50.0). -/
theorem c1_region_risk_summary :
    (∀ (t : Frame) (rg : String),
      "order_region" ∈ t.cols → "lead_time_variance" ∈ t.cols →
      "late_delivery_risk" ∈ t.cols →
      matchedRows t rg ≠ [] →
      (∀ r ∈ matchedRows t rg,
        isIntVal ((colVal t.cols r "lead_time_variance").getD .null) = true) →
      audit_region_risk t rg = .ok (.summary
        (matchedRows t rg).length
        ((((matchedRows t rg).map
            (fun r => intValD ((colVal t.cols r "lead_time_variance").getD .null))).sum : ℚ)
          / ((matchedRows t rg).length : ℚ))
        (100 * (((matchedRows t rg).filter
            (fun r => decide (colVal t.cols r "late_delivery_risk" = some (.int 1)))).length : ℚ)
          / ((matchedRows t rg).length : ℚ)))) ∧
    auditStore (ingest_data (some (readCsvChunks 20000 scenarioCsv)) none).store "West"
      = .ok (.summary 2 1 50) := by
  constructor
  · intro t rg h1 h2 h3 hne hint
    have hlen0 : ¬ ((matchedRows t rg).length = 0) :=
      fun h => hne (List.length_eq_zero.mp h)
    have hnums : (matchedRows t rg).filterMap
        (fun r => sqlInt ((colVal t.cols r "lead_time_variance").getD .null))
        = (matchedRows t rg).map
            (fun r => intValD ((colVal t.cols r "lead_time_variance").getD .null)) := by
      apply filterMap_eq_map_of
      intro r hr
      have hv := hint r hr
      cases hval : (colVal t.cols r "lead_time_variance").getD .null with
      | int k => rfl
      | str q =>
        rw [hval] at hv
        simp [isIntVal] at hv
      | null =>
        rw [hval] at hv
        simp [isIntVal] at hv
    obtain ⟨r0, m2, hm2⟩ := List.exists_cons_of_ne_nil hne
    simp only [audit_region_risk]
    rw [if_pos ⟨h1, h2, h3⟩, if_neg hlen0, hnums, hm2]
    simp only [List.map_cons]
    rw [mkRat_nat_div, mkRat_nat_div]
    simp only [List.length_map, List.length_cons]
    congr 1
    congr 1
    push_cast
    ring
  · have hchunk : readCsvChunks 20000 scenarioCsv = [scenarioCsv] := by
      simp [readCsvChunks, chunkRows, scenarioCsv]
    rw [hchunk]
    decide

/-- Witness for C1 on a concrete three-row table with two West records. -/
theorem c1_region_risk_summary_witness :
    matchedRows ⟨["order_region", "lead_time_variance", "late_delivery_risk"],
      [[.str "W", .int 2, .int 1], [.str "W", .int 0, .int 0],
       [.str "E", .int 9, .int 1]]⟩ "W" ≠ [] ∧
    audit_region_risk ⟨["order_region", "lead_time_variance", "late_delivery_risk"],
      [[.str "W", .int 2, .int 1], [.str "W", .int 0, .int 0],
       [.str "E", .int 9, .int 1]]⟩ "W" = .ok (.summary
        (matchedRows ⟨["order_region", "lead_time_variance", "late_delivery_risk"],
          [[.str "W", .int 2, .int 1], [.str "W", .int 0, .int 0],
           [.str "E", .int 9, .int 1]]⟩ "W").length
        ((((matchedRows ⟨["order_region", "lead_time_variance", "late_delivery_risk"],
            [[.str "W", .int 2, .int 1], [.str "W", .int 0, .int 0],
             [.str "E", .int 9, .int 1]]⟩ "W").map
            (fun r => intValD ((colVal ["order_region", "lead_time_variance",
              "late_delivery_risk"] r "lead_time_variance").getD .null))).sum : ℚ)
          / ((matchedRows ⟨["order_region", "lead_time_variance", "late_delivery_risk"],
            [[.str "W", .int 2, .int 1], [.str "W", .int 0, .int 0],
             [.str "E", .int 9, .int 1]]⟩ "W").length : ℚ))
        (100 * (((matchedRows ⟨["order_region", "lead_time_variance", "late_delivery_risk"],
            [[.str "W", .int 2, .int 1], [.str "W", .int 0, .int 0],
             [.str "E", .int 9, .int 1]]⟩ "W").filter
            (fun r => decide (colVal ["order_region", "lead_time_variance",
              "late_delivery_risk"] r "late_delivery_risk" = some (.int 1)))).length : ℚ)
          / ((matchedRows ⟨["order_region", "lead_time_variance", "late_delivery_risk"],
            [[.str "W", .int 2, .int 1], [.str "W", .int 0, .int 0],
             [.str "E", .int 9, .int 1]]⟩ "W").length : ℚ))) :=
  ⟨by decide,
   c1_region_risk_summary.1 ⟨["order_region", "lead_time_variance", "late_delivery_risk"],
     [[.str "W", .int 2, .int 1], [.str "W", .int 0, .int 0],
      [.str "E", .int 9, .int 1]]⟩ "W" (by decide) (by decide) (by decide) (by decide)
     (by decide)⟩

/-- C9: when the source dataset cannot be located, `ingest_data` returns
before opening the destination database; the previously loaded table is left
untouched and every audit query answers exactly as before the failed run. -/
theorem c9_source_not_found (s : Option Frame) :
    ingest_data none s = ⟨false, s, none⟩ ∧
    ∀ rg, auditStore (ingest_data none s).store rg = auditStore s rg := by
  exact ⟨rfl, fun _ => rfl⟩

/-- C3 counterexample: a batch whose normalized schema has
`days_for_shipping_real` but lacks `days_for_shipment_scheduled` does not pass
through unchanged — the feature step fails with a KeyError, because the code
only guards on the presence of `days_for_shipping_real`. -/
theorem c3_deriver_passthrough_counterexample :
    deriveLeadTime ⟨["days_for_shipping_real"], [[.int 5]]⟩ =
      .error "KeyError: days_for_shipment_scheduled" := by
  decide

/-- C3 (amended): a batch lacking `days_for_shipping_real` passes through
unchanged; a batch with `days_for_shipping_real` but without
`days_for_shipment_scheduled` makes the deriver fail with a KeyError; and in
every successful derivation `lead_time_variance` is present in the output
exactly when it was already present or `days_for_shipping_real` was present
in the input. -/
theorem c3_deriver_passthrough_amended :
    (∀ f : Frame, "days_for_shipping_real" ∉ f.cols → deriveLeadTime f = .ok f) ∧
    (∀ f : Frame, "days_for_shipping_real" ∈ f.cols →
      "days_for_shipment_scheduled" ∉ f.cols →
      deriveLeadTime f = .error "KeyError: days_for_shipment_scheduled") ∧
    (∀ f g : Frame, deriveLeadTime f = .ok g →
      ("lead_time_variance" ∈ g.cols ↔
        "lead_time_variance" ∈ f.cols ∨ "days_for_shipping_real" ∈ f.cols)) := by
  refine ⟨?_, ?_, ?_⟩
  · intro f h
    simp [deriveLeadTime, h]
  · intro f h1 h2
    simp [deriveLeadTime, h1, h2]
  · intro f g h
    by_cases hr : "days_for_shipping_real" ∈ f.cols
    · by_cases hs : "days_for_shipment_scheduled" ∈ f.cols
      · by_cases hany : f.rows.any (rowSubErr f.cols) = true
        · simp [deriveLeadTime, hr, hs, hany] at h
        · have hany2 : f.rows.any (rowSubErr f.cols) = false := by
            simpa using hany
          simp [deriveLeadTime, hr, hs, hany2] at h
          obtain rfl : (⟨deriveCols f.cols, f.rows.map (deriveRow f.cols)⟩ : Frame) = g :=
            by simpa using h
          by_cases hl : "lead_time_variance" ∈ f.cols <;>
            simp [deriveCols, hl, hr]
      · simp [deriveLeadTime, hr, hs] at h
    · simp only [deriveLeadTime, hr, if_false, if_neg hr] at h
      obtain rfl : f = g := by simpa using h
      simp [hr]

/-- Witness for the amended C3 at concrete batches. -/
theorem c3_deriver_passthrough_amended_witness :
    deriveLeadTime ⟨["a"], [[.int 1]]⟩ = .ok ⟨["a"], [[.int 1]]⟩ ∧
    deriveLeadTime ⟨["days_for_shipping_real", "x"], [[.int 5, .int 7]]⟩ =
      .error "KeyError: days_for_shipment_scheduled" :=
  ⟨c3_deriver_passthrough_amended.1 ⟨["a"], [[.int 1]]⟩ (by decide),
   c3_deriver_passthrough_amended.2.1 ⟨["days_for_shipping_real", "x"], [[.int 5, .int 7]]⟩
     (by decide) (by decide)⟩

/-- C5: a region matching zero records of a table carrying the audit columns
gets the distinguishable "no data" reply, not a division by zero and not an
exception. -/
theorem c5_no_data (t : Frame) (rg : String)
    (h1 : "order_region" ∈ t.cols) (h2 : "lead_time_variance" ∈ t.cols)
    (h3 : "late_delivery_risk" ∈ t.cols)
    (h0 : matchedRows t rg = []) :
    audit_region_risk t rg = .ok (.noData rg) := by
  simp [audit_region_risk, h1, h2, h3, h0]

/-- Witness for C5: a one-row West table queried for North. -/
theorem c5_no_data_witness :
    matchedRows ⟨["order_region", "lead_time_variance", "late_delivery_risk"],
      [[.str "West", .int 2, .int 1]]⟩ "North" = [] ∧
    audit_region_risk ⟨["order_region", "lead_time_variance", "late_delivery_risk"],
      [[.str "West", .int 2, .int 1]]⟩ "North" = .ok (.noData "North") :=
  ⟨by decide,
   c5_no_data ⟨["order_region", "lead_time_variance", "late_delivery_risk"],
     [[.str "West", .int 2, .int 1]]⟩ "North" (by decide) (by decide) (by decide)
     (by decide)⟩

/-- C10: with at least one matching record but a NULL `lead_time_variance` on
every one of them, the audit operation raises (the NULL average reaches the
float format), instead of returning a summary or the "no data" reply; only
the zero-record case is guarded. -/
theorem c10_null_avg_raises (t : Frame) (rg : String)
    (h1 : "order_region" ∈ t.cols) (h2 : "lead_time_variance" ∈ t.cols)
    (h3 : "late_delivery_risk" ∈ t.cols)
    (hne : matchedRows t rg ≠ [])
    (hnull : ∀ r ∈ matchedRows t rg,
      (colVal t.cols r "lead_time_variance").getD .null = .null) :
    audit_region_risk t rg =
      .error "TypeError: unsupported format string passed to NoneType" := by
  have hlen : (matchedRows t rg).length ≠ 0 := by
    simpa [List.length_eq_zero] using hne
  have hnums : (matchedRows t rg).filterMap
      (fun r => sqlInt ((colVal t.cols r "lead_time_variance").getD .null)) = [] := by
    rw [List.filterMap_eq_nil_iff]
    intro r hr
    rw [hnull r hr]
    rfl
  simp [audit_region_risk, h1, h2, h3, hlen, hnums]

/-- Witness for C10: one matched record whose variance is NULL. -/
theorem c10_null_avg_raises_witness :
    matchedRows ⟨["order_region", "lead_time_variance", "late_delivery_risk"],
      [[.str "West", .null, .int 1]]⟩ "West" ≠ [] ∧
    audit_region_risk ⟨["order_region", "lead_time_variance", "late_delivery_risk"],
      [[.str "West", .null, .int 1]]⟩ "West" =
      .error "TypeError: unsupported format string passed to NoneType" :=
  ⟨by decide,
   c10_null_avg_raises ⟨["order_region", "lead_time_variance", "late_delivery_risk"],
     [[.str "West", .null, .int 1]]⟩ "West" (by decide) (by decide) (by decide)
     (by decide) (by decide)⟩

/-- C2 counterexample: a two-batch load whose second batch lacks a column of
the canonical schema neither aborts nor restores the pre-load store — the load
completes without error and the table holds a mix of both batches, the second
one null-padded. -/
theorem c2_schema_mismatch_counterexample :
    ingest_data (some [⟨["order_region", "b"], [[.str "W", .int 1]]⟩,
        ⟨["order_region"], [[.str "E"]]⟩])
        (some ⟨["order_region"], [[.str "Old"]]⟩) =
      ⟨true, some ⟨["order_region", "b"],
        [[.str "W", .int 1], [.str "E", .null]]⟩, none⟩ ∧
    (ingest_data (some [⟨["order_region", "b"], [[.str "W", .int 1]]⟩,
        ⟨["order_region"], [[.str "E"]]⟩])
        (some ⟨["order_region"], [[.str "Old"]]⟩)).store ≠
      some ⟨["order_region"], [[.str "Old"]]⟩ := by
  decide

/-- C2 (amended): the loader performs no schema check between batches.  A
later batch whose normalized columns all lie in the canonical schema is
silently appended (missing columns filled with NULL); a later batch with a
column outside the canonical schema makes the append fail, which aborts the
load but keeps everything already committed, so the store does not return to
its pre-load state. -/
theorem c2_schema_mismatch_amended :
    (∀ t c : Frame, (∀ x ∈ c.cols, x ∈ t.cols) →
      ∃ t2, appendFrame t c = .ok t2 ∧ t2.cols = t.cols ∧
        t2.rows.length = t.rows.length + c.rows.length) ∧
    (∀ t c : Frame, (∃ x ∈ c.cols, x ∉ t.cols) →
      appendFrame t c =
        .error "sqlite3.OperationalError: table orders has no column") := by
  constructor
  · intro t c h
    have hall : (c.cols.all fun col => t.cols.contains col) = true := by
      rw [List.all_eq_true]
      intro x hx
      exact List.elem_iff.mpr (h x hx)
    refine ⟨⟨t.cols, t.rows ++ c.rows.map (fun r =>
      t.cols.map (fun col =>
        if c.cols.contains col then (colVal c.cols r col).getD .null
        else .null))⟩, ?_, rfl, by simp⟩
    unfold appendFrame
    rw [if_pos hall]
  · intro t c h
    obtain ⟨x, hx, hnx⟩ := h
    have hall : (c.cols.all fun col => t.cols.contains col) = false := by
      rw [List.all_eq_false]
      refine ⟨x, hx, ?_⟩
      simpa using hnx
    unfold appendFrame
    rw [if_neg]
    simp only [hall, Bool.false_eq_true, not_false_eq_true]

/-- Witness for the amended C2 at concrete tables. -/
theorem c2_schema_mismatch_amended_witness :
    (∃ t2, appendFrame ⟨["a", "b"], [[.int 1, .int 2]]⟩ ⟨["a"], [[.int 3]]⟩ =
        .ok t2 ∧ t2.cols = ["a", "b"] ∧ t2.rows.length = 2) ∧
    appendFrame ⟨["a"], [[.int 1]]⟩ ⟨["a", "c"], [[.int 3, .int 4]]⟩ =
      .error "sqlite3.OperationalError: table orders has no column" :=
  ⟨c2_schema_mismatch_amended.1 ⟨["a", "b"], [[.int 1, .int 2]]⟩ ⟨["a"], [[.int 3]]⟩
     (by decide),
   c2_schema_mismatch_amended.2 ⟨["a"], [[.int 1]]⟩ ⟨["a", "c"], [[.int 3, .int 4]]⟩
     ⟨"c", by decide, by decide⟩⟩

/-- C4: loading a dataset with at least one record whose raw labels contain
two distinct labels normalizing to the same canonical label surfaces an error
before any batch of the load is committed: the run ends in an error and the
store holds either the untouched pre-load table (when the feature step raised
before `to_sql`) or no table at all (pandas' autocommitted DROP precedes the
CREATE that sqlite rejects with "duplicate column name") — never a table with
silently merged duplicate columns. -/
theorem c4_ambiguous_column (f : Frame) (s : Option Frame) (n i j : Nat)
    (hrows : f.rows ≠ [])
    (hij : i ≠ j) (hi : i < f.cols.length) (hj : j < f.cols.length)
    (hraw : f.cols.getD i "" ≠ f.cols.getD j "")
    (hclean : cleanLabel (f.cols.getD i "") = cleanLabel (f.cols.getD j "")) :
    ((ingest_data (some (readCsvChunks n f)) s).store = s ∨
      (ingest_data (some (readCsvChunks n f)) s).store = none) ∧
    (ingest_data (some (readCsvChunks n f)) s).err.isSome = true := by
  obtain ⟨r, rest, hf⟩ := List.exists_cons_of_ne_nil hrows
  have hnd : ¬ (f.cols.map cleanLabel).Nodup := by
    intro hnodup
    have hi2 : i < (f.cols.map cleanLabel).length := by simpa using hi
    have hj2 : j < (f.cols.map cleanLabel).length := by simpa using hj
    have hdup : (f.cols.map cleanLabel)[i] = (f.cols.map cleanLabel)[j] := by
      rw [List.getElem_map, List.getElem_map, ← getD_lt f.cols i hi "",
        ← getD_lt f.cols j hj ""]
      exact hclean
    exact hij (hnodup.getElem_inj_iff.mp hdup)
  have hchunks : readCsvChunks n f =
      (⟨f.cols, r :: rest.take (n - 1)⟩ : Frame) ::
        (chunkRows n (rest.drop (n - 1))).map (fun rs => (⟨f.cols, rs⟩ : Frame)) := by
    rw [readCsvChunks, hf, chunkRows]
    simp
  obtain ⟨e, st, he, hst⟩ := ingestLoop_first_fails ⟨f.cols, r :: rest.take (n - 1)⟩
    ((chunkRows n (rest.drop (n - 1))).map (fun rs => (⟨f.cols, rs⟩ : Frame))) s hnd
  rw [hchunks]
  simp only [ingest_data]
  rw [he]
  exact ⟨hst, rfl⟩

/-- Witness for C4: the raw labels "A B" and "a b" both normalize to "a_b";
over a store holding a previously loaded table, the run errors and commits
nothing of the new load. -/
theorem c4_ambiguous_column_witness :
    ((ingest_data (some (readCsvChunks 20000
        ⟨["A B", "a b"], [[.int 1, .int 2]]⟩))
        (some ⟨["order_region"], [[.str "Old"]]⟩)).store
        = some ⟨["order_region"], [[.str "Old"]]⟩ ∨
      (ingest_data (some (readCsvChunks 20000
        ⟨["A B", "a b"], [[.int 1, .int 2]]⟩))
        (some ⟨["order_region"], [[.str "Old"]]⟩)).store = none) ∧
    (ingest_data (some (readCsvChunks 20000
        ⟨["A B", "a b"], [[.int 1, .int 2]]⟩))
        (some ⟨["order_region"], [[.str "Old"]]⟩)).err.isSome = true :=
  c4_ambiguous_column ⟨["A B", "a b"], [[.int 1, .int 2]]⟩
    (some ⟨["order_region"], [[.str "Old"]]⟩) 20000 0 1
    (by decide) (by decide) (by decide) (by decide) (by decide) (by decide)

/-- C6: in a successfully derived batch whose schema carries both day-count
columns, the derived `lead_time_variance` of any record with integer day
counts is exactly the integer difference actual minus scheduled, unclamped
and unrounded.  (Success is a hypothesis because a string day-count cell in
another record faithfully aborts the whole-batch subtraction.) -/
theorem c6_lead_time_variance (f g : Frame) (i : Nat) (a b : Int)
    (hok : deriveLeadTime f = .ok g)
    (hi : i < f.rows.length)
    (hr : "days_for_shipping_real" ∈ f.cols)
    (hs : "days_for_shipment_scheduled" ∈ f.cols)
    (hl : "lead_time_variance" ∉ f.cols)
    (halign : (f.rows.getD i []).length = f.cols.length)
    (ha : colVal f.cols (f.rows.getD i []) "days_for_shipping_real" = some (.int a))
    (hb : colVal f.cols (f.rows.getD i []) "days_for_shipment_scheduled" = some (.int b)) :
    i < g.rows.length ∧
      colVal g.cols (g.rows.getD i []) "lead_time_variance" = some (.int (a - b)) := by
  by_cases hany : f.rows.any (rowSubErr f.cols) = true
  · simp [deriveLeadTime, hr, hs, hany] at hok
  · have hany2 : f.rows.any (rowSubErr f.cols) = false := by
      simpa using hany
    have hg : (⟨deriveCols f.cols, f.rows.map (deriveRow f.cols)⟩ : Frame) = g := by
      have := hok
      simp [deriveLeadTime, hr, hs, hany2] at this
      simpa using this
    subst hg
    refine ⟨by simpa using hi, ?_⟩
    rw [getD_map_helper (deriveRow f.cols) f.rows i hi [] []]
    have hrow : deriveRow f.cols (f.rows.getD i []) =
        f.rows.getD i [] ++ [Val.int (a - b)] := by
      simp only [deriveRow, ha, hb, Option.getD_some, if_neg hl, subVal]
    have hcols : deriveCols f.cols = f.cols ++ ["lead_time_variance"] := by
      simp only [deriveCols, if_neg hl]
    rw [hrow, hcols]
    exact colVal_append_fresh f.cols (f.rows.getD i []) "lead_time_variance"
      (Val.int (a - b)) halign hl

/-- Witness for C6: actual 5 / scheduled 3 gives 2, actual 2 / scheduled 5
gives -3, on a concrete two-record batch that derives successfully. -/
theorem c6_lead_time_variance_witness :
    (0 < (⟨["days_for_shipping_real", "days_for_shipment_scheduled",
          "lead_time_variance"],
        [[.int 5, .int 3, .int 2], [.int 2, .int 5, .int (-3)]]⟩ : Frame).rows.length ∧
      colVal ["days_for_shipping_real", "days_for_shipment_scheduled",
          "lead_time_variance"]
        ((⟨["days_for_shipping_real", "days_for_shipment_scheduled",
            "lead_time_variance"],
          [[.int 5, .int 3, .int 2], [.int 2, .int 5, .int (-3)]]⟩ : Frame).rows.getD 0 [])
        "lead_time_variance" = some (.int 2)) ∧
    (1 < (⟨["days_for_shipping_real", "days_for_shipment_scheduled",
          "lead_time_variance"],
        [[.int 5, .int 3, .int 2], [.int 2, .int 5, .int (-3)]]⟩ : Frame).rows.length ∧
      colVal ["days_for_shipping_real", "days_for_shipment_scheduled",
          "lead_time_variance"]
        ((⟨["days_for_shipping_real", "days_for_shipment_scheduled",
            "lead_time_variance"],
          [[.int 5, .int 3, .int 2], [.int 2, .int 5, .int (-3)]]⟩ : Frame).rows.getD 1 [])
        "lead_time_variance" = some (.int (-3))) :=
  ⟨c6_lead_time_variance ⟨["days_for_shipping_real", "days_for_shipment_scheduled"],
      [[.int 5, .int 3], [.int 2, .int 5]]⟩
      ⟨["days_for_shipping_real", "days_for_shipment_scheduled", "lead_time_variance"],
        [[.int 5, .int 3, .int 2], [.int 2, .int 5, .int (-3)]]⟩ 0 5 3
      (by decide) (by decide) (by decide) (by decide) (by decide) (by decide)
      (by decide) (by decide),
   c6_lead_time_variance ⟨["days_for_shipping_real", "days_for_shipment_scheduled"],
      [[.int 5, .int 3], [.int 2, .int 5]]⟩
      ⟨["days_for_shipping_real", "days_for_shipment_scheduled", "lead_time_variance"],
        [[.int 5, .int 3, .int 2], [.int 2, .int 5, .int (-3)]]⟩ 1 2 5
      (by decide) (by decide) (by decide) (by decide) (by decide) (by decide)
      (by decide) (by decide)⟩

/-- C7: the Schema Normalizer keeps the column count, the column order and
the records; each canonical label is the raw label lowercased, spaces turned
into underscores and literal parentheses removed (and the map is a pure
function, hence deterministic). -/
theorem c7_normalizer (f : Frame) :
    ((clean_column_names f).cols.length = f.cols.length ∧
      (clean_column_names f).rows = f.rows) ∧
    ∀ i, i < f.cols.length →
      (clean_column_names f).cols.getD i "" = specLabel (f.cols.getD i "") := by
  refine ⟨⟨by simp [clean_column_names], rfl⟩, ?_⟩
  intro i hi
  show (f.cols.map cleanLabel).getD i "" = _
  rw [getD_map_helper cleanLabel f.cols i hi "" "", cleanLabel_eq_spec]

/-- C8 counterexample: a dataset whose second record has a string day-count
cell breaks batching transparency.  In size-1 batches the first record is
committed before the failing subtraction, so West answers with a summary; as
a single batch the subtraction fails before any commit, so no table exists
and the same query errs — the two runs differ. -/
theorem c8_batching_transparency_counterexample :
    auditStore (ingest_data (some (readCsvChunks 1
        ⟨["days_for_shipping_real", "days_for_shipment_scheduled",
          "late_delivery_risk", "order_region"],
         [[.int 5, .int 3, .int 1, .str "W"],
          [.str "x", .int 2, .int 0, .str "E"]]⟩)) none).store "W"
      = .ok (.summary 1 2 100) ∧
    auditStore (ingest_data (some (readCsvChunks 2
        ⟨["days_for_shipping_real", "days_for_shipment_scheduled",
          "late_delivery_risk", "order_region"],
         [[.int 5, .int 3, .int 1, .str "W"],
          [.str "x", .int 2, .int 0, .str "E"]]⟩)) none).store "W"
      = .error "sqlite3.OperationalError: no such table: orders" ∧
    ingest_data (some (readCsvChunks 1
        ⟨["days_for_shipping_real", "days_for_shipment_scheduled",
          "late_delivery_risk", "order_region"],
         [[.int 5, .int 3, .int 1, .str "W"],
          [.str "x", .int 2, .int 0, .str "E"]]⟩)) none
      ≠ ingest_data (some (readCsvChunks 2
        ⟨["days_for_shipping_real", "days_for_shipment_scheduled",
          "late_delivery_risk", "order_region"],
         [[.int 5, .int 3, .int 1, .str "W"],
          [.str "x", .int 2, .int 0, .str "E"]]⟩)) none := by
  have h1 : readCsvChunks 1
      (⟨["days_for_shipping_real", "days_for_shipment_scheduled",
         "late_delivery_risk", "order_region"],
        [[.int 5, .int 3, .int 1, .str "W"],
         [.str "x", .int 2, .int 0, .str "E"]]⟩ : Frame)
      = [⟨["days_for_shipping_real", "days_for_shipment_scheduled",
           "late_delivery_risk", "order_region"],
          [[.int 5, .int 3, .int 1, .str "W"]]⟩,
         ⟨["days_for_shipping_real", "days_for_shipment_scheduled",
           "late_delivery_risk", "order_region"],
          [[.str "x", .int 2, .int 0, .str "E"]]⟩] := by
    simp [readCsvChunks, chunkRows]
  have h2 : readCsvChunks 2
      (⟨["days_for_shipping_real", "days_for_shipment_scheduled",
         "late_delivery_risk", "order_region"],
        [[.int 5, .int 3, .int 1, .str "W"],
         [.str "x", .int 2, .int 0, .str "E"]]⟩ : Frame)
      = [⟨["days_for_shipping_real", "days_for_shipment_scheduled",
           "late_delivery_risk", "order_region"],
          [[.int 5, .int 3, .int 1, .str "W"],
           [.str "x", .int 2, .int 0, .str "E"]]⟩] := by
    simp [readCsvChunks, chunkRows]
  rw [h1, h2]
  exact ⟨by decide, by decide, by decide⟩

/-- C8 (amended): ingesting a rectangular dataset whose day-count cells are
never strings in batches of size 1 produces the same run outcome — and hence
identical audit query answers — as ingesting it as one single batch,
including for datasets with zero rows or one row.  (With a string day-count
cell the two runs can diverge: the single batch aborts before any commit
while size-1 batching first commits the preceding records.) -/
theorem c8_batching_transparency (f : Frame) (s : Option Frame)
    (halign : ∀ r ∈ f.rows, r.length = f.cols.length)
    (hstr : ∀ r ∈ f.rows, rowSubErr (f.cols.map cleanLabel) r = false) :
    ingest_data (some (readCsvChunks 1 f)) s
      = ingest_data (some (readCsvChunks f.rows.length f)) s ∧
    ∀ rg, auditStore (ingest_data (some (readCsvChunks 1 f)) s).store rg
        = auditStore (ingest_data (some (readCsvChunks f.rows.length f)) s).store rg := by
  have main : ingest_data (some (readCsvChunks 1 f)) s
      = ingest_data (some (readCsvChunks f.rows.length f)) s := by
    cases hf : f.rows with
    | nil =>
      have h1 : readCsvChunks 1 f = [] := by
        rw [readCsvChunks, hf]
        simp [chunkRows]
      have h2 : readCsvChunks f.rows.length f = [] := by
        rw [readCsvChunks, hf]
        simp [chunkRows]
      rw [hf] at h2
      rw [h1, h2]
    | cons r rest =>
      have h1 : readCsvChunks 1 f =
          (r :: rest).map (fun x => (⟨f.cols, [x]⟩ : Frame)) := by
        rw [readCsvChunks, hf, chunkRows_one, List.map_map]
        rfl
      have h2 : readCsvChunks f.rows.length f = [(⟨f.cols, r :: rest⟩ : Frame)] := by
        rw [readCsvChunks, hf, chunkRows_full (r :: rest) (by simp)]
        rfl
      rw [hf] at h2
      rw [h1, h2]
      have halign2 : ∀ x ∈ r :: rest, x.length = f.cols.length := by
        rw [← hf]
        exact halign
      have hstr2 : ∀ x ∈ r :: rest, rowSubErr (f.cols.map cleanLabel) x = false := by
        rw [← hf]
        exact hstr
      by_cases hr1 : "days_for_shipping_real" ∈ f.cols.map cleanLabel
      · by_cases hs1 : "days_for_shipment_scheduled" ∈ f.cols.map cleanLabel
        · exact ingest_single_eq f.cols r rest s
            (deriveCols (f.cols.map cleanLabel)) (deriveRow (f.cols.map cleanLabel))
            (fun x => rowSubErr (f.cols.map cleanLabel) x = false)
            (fun rs hok => derive_rowwise f.cols rs hr1 hs1 hok)
            hstr2
            (fun x hx => deriveRow_length (f.cols.map cleanLabel) x
              (by simpa using halign2 x hx))
        · exact ingest_single_err f.cols r rest s _
            (fun rs => derive_err f.cols rs hr1 hs1)
      · exact ingest_single_eq f.cols r rest s (f.cols.map cleanLabel) id
          (fun _ => True)
          (fun rs _ => by
            rw [List.map_id]
            exact derive_skip f.cols rs hr1)
          (fun x _ => trivial)
          (fun x hx => by simpa using halign2 x hx)
  exact ⟨main, fun rg => by rw [main]⟩

/-- Witness for the amended C8 on a concrete two-row dataset with integer
day counts. -/
theorem c8_batching_transparency_witness :
    (∀ r ∈ ([[Val.int 4, Val.int 3, Val.str "W"],
        [Val.int 1, Val.int 2, Val.str "E"]] : List Row),
      r.length = (["Days for shipping (real)", "Days for shipment (scheduled)",
        "Order Region"] : List String).length) ∧
    ingest_data (some (readCsvChunks 1
        ⟨["Days for shipping (real)", "Days for shipment (scheduled)", "Order Region"],
         [[.int 4, .int 3, .str "W"], [.int 1, .int 2, .str "E"]]⟩)) none
      = ingest_data (some (readCsvChunks 2
        ⟨["Days for shipping (real)", "Days for shipment (scheduled)", "Order Region"],
         [[.int 4, .int 3, .str "W"], [.int 1, .int 2, .str "E"]]⟩)) none :=
  ⟨by decide,
   (c8_batching_transparency
     ⟨["Days for shipping (real)", "Days for shipment (scheduled)", "Order Region"],
      [[.int 4, .int 3, .str "W"], [.int 1, .int 2, .str "E"]]⟩ none
     (by decide) (by decide)).1⟩

/-- Witness for C7 on the raw label "Order Region". -/
theorem c7_normalizer_witness :
    0 < (["Order Region"] : List String).length ∧
    (clean_column_names ⟨["Order Region"], []⟩).cols.getD 0 "" =
      specLabel ((["Order Region"] : List String).getD 0 "") ∧
    (clean_column_names ⟨["Order Region"], []⟩).cols = ["order_region"] :=
  ⟨by decide, (c7_normalizer ⟨["Order Region"], []⟩).2 0 (by decide), by decide⟩

end SupplyChain
